import Mathlib

/-!
Shallow embedding of the `auhdhd_rag_agent` package: the retrieval tool
(`retrieve_knowledge_tool.py`), the two ingestion pipelines (`ingest.py`,
`ingest_cloud.py`) and the interactive CLI loop (`main.py`).

External services (the OpenAI embedding client, the Pinecone vector store,
the FAISS library, the text splitter, the agent runner) are modelled as
explicit behaviour records passed into each embedded function; every
embedded function additionally records the trace of external calls it
makes, so that properties such as "no network call is attempted" are
statements about the trace.
-/

/-- The four environment variables read by both the retrieval tool and the
cloud ingestion script.  `none` models an unset variable; `some ""` models a
variable set to the empty string (falsy in Python). -/
structure Env where
  OPENAI_API_KEY : Option String
  PINECONE_API_KEY : Option String
  PINECONE_ENVIRONMENT : Option String
  PINECONE_INDEX_NAME : Option String
deriving DecidableEq

/-- Python truthiness of an `os.getenv` result: `None` and the empty string
are falsy, every other string is truthy. -/
def truthy : Option String → Bool
  | none => false
  | some s => !(s == "")

/-- The list of missing required environment variable names, built in the
order the source checks them (`retrieve_knowledge_tool.py` lines 38-42 and
`ingest_cloud.py` lines 37-41 test the same four variables in the same
order). -/
def missingVars (env : Env) : List String :=
  (if truthy env.OPENAI_API_KEY then [] else ["OPENAI_API_KEY"]) ++
  (if truthy env.PINECONE_API_KEY then [] else ["PINECONE_API_KEY"]) ++
  (if truthy env.PINECONE_ENVIRONMENT then [] else ["PINECONE_ENVIRONMENT"]) ++
  (if truthy env.PINECONE_INDEX_NAME then [] else ["PINECONE_INDEX_NAME"])

namespace RetrieveKnowledgeTool

/-- `OPENAI_EMBEDDING_MODEL` from `retrieve_knowledge_tool.py` line 11. -/
def OPENAI_EMBEDDING_MODEL : String := "text-embedding-ada-002"

/-- `TOP_K_RESULTS` from `retrieve_knowledge_tool.py` line 12. -/
def TOP_K_RESULTS : Nat := 3

/-- One external call made by `query_knowledge_base`, with the arguments
the source passes: the embedding-model name given to `OpenAIEmbeddings`,
the index name given to `PineconeVectorStore.from_existing_index`, and the
query and `k` given to `similarity_search`. -/
inductive Call
  | initEmbeddings (model : String)
  | connectIndex (indexName : String)
  | similaritySearch (query : String) (k : Nat)
deriving DecidableEq

/-- Behaviour of the external services during one retrieval: whether the
`OpenAIEmbeddings` constructor raises, whether
`PineconeVectorStore.from_existing_index` raises, and what
`similarity_search` returns (the `page_content` of each retrieved
document) or raises. -/
structure Behavior where
  initEmbeddings : Except String Unit
  connectIndex : Except String Unit
  similaritySearch : String → Nat → Except String (List String)

/-- The dictionary returned by `query_knowledge_base`: every return site
includes the keys `status` and `retrieved_context`; the key `message` is
present in some branches and absent in the final success branch, modelled
by `Option`. -/
structure ToolResult where
  status : String
  message : Option String
  retrieved_context : String
deriving DecidableEq

/-- A retrieval run: the returned dictionary together with the trace of
external calls made. -/
structure RunResult where
  result : ToolResult
  calls : List Call
deriving DecidableEq

/-- Embedding of `query_knowledge_base` (`retrieve_knowledge_tool.py`
lines 14-93): validate the four environment variables (returning an error
naming the missing ones before any external call), then initialise the
embedding client, connect to the Pinecone index, run the similarity search
with `k = TOP_K_RESULTS`, and format the result; every exception from an
external call is caught and converted to a `status = "error"` dictionary. -/
def query_knowledge_base (env : Env) (beh : Behavior) (user_query : String) :
    RunResult :=
  if missingVars env = [] then
    let idx := env.PINECONE_INDEX_NAME.getD ""
    match beh.initEmbeddings with
    | .error e =>
        { result := ⟨"error", some ("Error initializing OpenAIEmbeddings: " ++ e), ""⟩,
          calls := [.initEmbeddings OPENAI_EMBEDDING_MODEL] }
    | .ok _ =>
      match beh.connectIndex with
      | .error e =>
          { result := ⟨"error",
              some ("Error connecting to Pinecone index \x27" ++ idx ++ "\x27: " ++ e), ""⟩,
            calls := [.initEmbeddings OPENAI_EMBEDDING_MODEL, .connectIndex idx] }
      | .ok _ =>
        match beh.similaritySearch user_query TOP_K_RESULTS with
        | .error e =>
            { result := ⟨"error",
                some ("Error during similarity search with Pinecone: " ++ e), ""⟩,
              calls := [.initEmbeddings OPENAI_EMBEDDING_MODEL, .connectIndex idx,
                        .similaritySearch user_query TOP_K_RESULTS] }
        | .ok retrieved_docs =>
            if retrieved_docs = [] then
              { result := ⟨"success",
                  some "No relevant information found in the knowledge base.", ""⟩,
                calls := [.initEmbeddings OPENAI_EMBEDDING_MODEL, .connectIndex idx,
                          .similaritySearch user_query TOP_K_RESULTS] }
            else
              { result := ⟨"success", none,
                  String.intercalate "\n\n---\n\n" retrieved_docs⟩,
                calls := [.initEmbeddings OPENAI_EMBEDDING_MODEL, .connectIndex idx,
                          .similaritySearch user_query TOP_K_RESULTS] }
  else
    { result := ⟨"error",
        some ("Error: Missing required environment variables: " ++
          String.intercalate ", " (missingVars env)), ""⟩,
      calls := [] }

/-- The `k` arguments of the similarity-search calls made during one
retrieval run. -/
def searchKs (env : Env) (beh : Behavior) (user_query : String) : List Nat :=
  (query_knowledge_base env beh user_query).calls.filterMap fun c =>
    match c with
    | .similaritySearch _ k => some k
    | _ => none

/-- The dictionary returned to the caller of `query_knowledge_base`. -/
def retrievalResult (env : Env) (beh : Behavior) (user_query : String) :
    ToolResult :=
  (query_knowledge_base env beh user_query).result

end RetrieveKnowledgeTool

namespace IngestCloud

/-- `KNOWLEDGE_FILE_PATH` from `ingest_cloud.py` line 10. -/
def KNOWLEDGE_FILE_PATH : String := "auhdhd_rag_agent/knowledge.txt"

/-- `OPENAI_EMBEDDING_DIMENSION` from `ingest_cloud.py` line 12: the
dimension of the `text-embedding-ada-002` model, used when creating the
Pinecone index. -/
def OPENAI_EMBEDDING_DIMENSION : Nat := 1536

/-- The embedding-model name passed to `OpenAIEmbeddings` in
`ingest_cloud.py` line 85. -/
def embeddingModel : String := "text-embedding-ada-002"

/-- One Pinecone index, as created by `pc.create_index`: a name, a vector
dimension and a distance metric. -/
structure IndexInfo where
  name : String
  dimension : Nat
  metric : String
deriving DecidableEq

/-- The state of the Pinecone service: the list of existing indexes and
the upserted records, each tagged with the index it lives in and its chunk
text. -/
structure PineconeState where
  indexes : List IndexInfo
  records : List (String × String)
deriving DecidableEq

/-- One external call made by `ingest_documents_to_pinecone`. -/
inductive CloudCall
  | clientInit
  | listIndexes
  | createIndex (name : String) (dim : Nat) (metric : String)
  | initEmbeddings (model : String)
  | upsert (indexName : String) (chunkCount : Nat)
deriving DecidableEq

/-- Behaviour of the external services during one cloud-ingestion run:
whether the Pinecone client constructor, `pc.create_index`, the
`OpenAIEmbeddings` constructor, `TextLoader.load` and
`PineconeVectorStore.from_documents` raise, whether the knowledge file
exists, and how `RecursiveCharacterTextSplitter(1000, 200)` splits one
document into chunk texts. -/
structure CloudBehavior where
  clientInit : Except String Unit
  createIndex : Except String Unit
  embeddingsInit : Except String Unit
  fileExists : Bool
  load : Except String (List String)
  split : String → List String
  upsert : Except String Unit

/-- The termination path of `ingest_documents_to_pinecone`: the Python
function communicates only by printing and returning early, so each early
`return` is modelled as its own outcome constructor. -/
inductive IngestOutcome
  | configError (missing : List String)
  | clientError (e : String)
  | createError (e : String)
  | embedInitError (e : String)
  | sourceNotFound
  | loadError (e : String)
  | emptySource
  | noChunks
  | upsertError (e : String)
  | completed (chunkCount : Nat)
deriving DecidableEq

/-- A cloud-ingestion run: the outcome, the resulting Pinecone state and
the trace of external calls made. -/
structure IngestRun where
  outcome : IngestOutcome
  state : PineconeState
  calls : List CloudCall
deriving DecidableEq

/-- The create-if-absent step of `ingest_documents_to_pinecone`
(`ingest_cloud.py` lines 53-77): list the existing index names; when the
wanted name is absent, create the index with the given dimension and
metric; when present, leave the service untouched. -/
def createIndexIfAbsent (s : PineconeState) (name : String) (dim : Nat)
    (metric : String) : PineconeState :=
  if name ∈ s.indexes.map IndexInfo.name then s
  else { s with indexes := s.indexes ++ [⟨name, dim, metric⟩] }

/-- Continuation of `ingest_documents_to_pinecone` after the index
check (`ingest_cloud.py` lines 83-128): initialise the embedding client,
check the knowledge file, load and split it, and upsert the chunks via
`PineconeVectorStore.from_documents`, which appends one fresh record per
chunk to the named index. -/
def finishIngest (env : Env) (beh : CloudBehavior) (st : PineconeState)
    (calls : List CloudCall) : IngestRun :=
  match beh.embeddingsInit with
  | .error e => ⟨.embedInitError e, st, calls ++ [.initEmbeddings embeddingModel]⟩
  | .ok _ =>
    let calls := calls ++ [.initEmbeddings embeddingModel]
    if beh.fileExists = false then ⟨.sourceNotFound, st, calls⟩
    else
      match beh.load with
      | .error e => ⟨.loadError e, st, calls⟩
      | .ok documents =>
        if documents = [] then ⟨.emptySource, st, calls⟩
        else
          let texts := documents.flatMap beh.split
          if texts = [] then ⟨.noChunks, st, calls⟩
          else
            let idx := env.PINECONE_INDEX_NAME.getD ""
            match beh.upsert with
            | .error e => ⟨.upsertError e, st, calls ++ [.upsert idx texts.length]⟩
            | .ok _ =>
                ⟨.completed texts.length,
                 { st with records := st.records ++ texts.map fun t => (idx, t) },
                 calls ++ [.upsert idx texts.length]⟩

/-- Embedding of `ingest_documents_to_pinecone` (`ingest_cloud.py`
lines 22-128): validate the four environment variables (aborting with a
configuration error naming the missing ones before any external call),
initialise the Pinecone client, create the index if absent, then embed and
upsert the chunks. -/
def ingest_documents_to_pinecone (env : Env) (beh : CloudBehavior)
    (st : PineconeState) : IngestRun :=
  if missingVars env = [] then
    let idx := env.PINECONE_INDEX_NAME.getD ""
    match beh.clientInit with
    | .error e => ⟨.clientError e, st, [.clientInit]⟩
    | .ok _ =>
      if idx ∈ st.indexes.map IndexInfo.name then
        finishIngest env beh st [.clientInit, .listIndexes]
      else
        match beh.createIndex with
        | .error e =>
            ⟨.createError e, st,
             [.clientInit, .listIndexes,
              .createIndex idx OPENAI_EMBEDDING_DIMENSION "cosine"]⟩
        | .ok _ =>
            finishIngest env beh
              (createIndexIfAbsent st idx OPENAI_EMBEDDING_DIMENSION "cosine")
              [.clientInit, .listIndexes,
               .createIndex idx OPENAI_EMBEDDING_DIMENSION "cosine"]
  else
    ⟨.configError (missingVars env), st, []⟩

end IngestCloud

namespace Ingest

/-- `KNOWLEDGE_FILE` from `ingest.py` line 8. -/
def KNOWLEDGE_FILE : String := "knowledge.txt"

/-- `FAISS_INDEX_FILE` from `ingest.py` line 9. -/
def FAISS_INDEX_FILE : String := "faiss_index"

/-- `EMBEDDING_MODEL` from `ingest.py` line 10: the HuggingFace sentence
transformer used by the local FAISS pipeline. -/
def EMBEDDING_MODEL : String := "all-MiniLM-L6-v2"

/-- `CHUNK_SIZE` from `ingest.py` line 11. -/
def CHUNK_SIZE : Nat := 500

/-- `CHUNK_OVERLAP` from `ingest.py` line 12. -/
def CHUNK_OVERLAP : Nat := 50

/-- Embedding of `ingest_documents` (`ingest.py` lines 14-61).  The local
filesystem is a map from path to the optionally saved store, where a saved
FAISS store is modelled by the list of chunk texts it holds.  The source
never loads an existing index: it checks that the knowledge file exists
(`knowledge` is its text, `none` when absent), splits the text with the
splitter behaviour `split`, builds a brand-new store containing exactly
the resulting chunks with `FAISS.from_documents` (succeeding when
`faissOk`), and writes it at `FAISS_INDEX_FILE` with `save_local`
(succeeding when `saveOk`), replacing whatever was saved there before. -/
def ingest_documents (split : String → List String) (knowledge : Option String)
    (faissOk : Bool) (saveOk : Bool) (fs : String → Option (List String)) :
    String → Option (List String) :=
  match knowledge with
  | none => fs
  | some text =>
    let texts := split text
    if texts = [] then fs
    else if faissOk = false then fs
    else if saveOk = false then fs
    else fun p => if p = FAISS_INDEX_FILE then some texts else fs p

end Ingest

namespace MainCli

/-- What one loop iteration of `run_cli` does with one line of input
(`main.py` lines 40-63): `exited` models printing the farewell and
breaking out of the loop, `skipped` models the blank-line `continue`,
`answered` models printing the agent answer (or the fallback string), and
`errorCaught` models the `except` branch that reports the error inline. -/
inductive TurnAction
  | exited
  | skipped
  | answered (text : String)
  | errorCaught (e : String)
deriving DecidableEq

/-- Python `str.lower()` as applied to the input line: each character is
lowercased (the inputs of interest are ASCII, where `Char.toLower` agrees
with Python). -/
def pyLower (s : String) : String := ⟨s.data.map Char.toLower⟩

/-- Python `str.strip()` as applied to the input line: leading and
trailing whitespace characters are removed. -/
def pyStrip (s : String) : String :=
  ⟨((s.data.dropWhile Char.isWhitespace).reverse.dropWhile Char.isWhitespace).reverse⟩

/-- `response_data.get("response", "No response content found.")` from
`main.py` line 56: the agent response dictionary is modelled as an
association list of string keys and values. -/
def getResponse (response_data : List (String × String)) : String :=
  match response_data.lookup "response" with
  | some v => v
  | none => "No response content found."

/-- One iteration of the `while True` loop of `run_cli` (`main.py`
lines 40-63) on the input line `line`: the lowercased line equal to
`exit` breaks the loop; a line that strips to the empty string is skipped
without consulting the agent; otherwise `runner.run` is invoked — its
raising is modelled by `agent` returning `.error`, caught and reported,
and its returned dictionary is printed through `getResponse`. -/
def processTurn (agent : String → Except String (List (String × String)))
    (line : String) : TurnAction :=
  if pyLower line = "exit" then .exited
  else if pyStrip line = "" then .skipped
  else
    match agent line with
    | .error e => .errorCaught e
    | .ok response_data => .answered (getResponse response_data)

/-- The whole read-eval loop of `run_cli` over a finite list of input
lines: each line yields one `TurnAction`; the loop stops at the first
`exited` action and otherwise continues with the remaining lines. -/
def runLoop (agent : String → Except String (List (String × String))) :
    List String → List TurnAction
  | [] => []
  | line :: rest =>
    match processTurn agent line with
    | .exited => [.exited]
    | .skipped => .skipped :: runLoop agent rest
    | .answered t => .answered t :: runLoop agent rest
    | .errorCaught e => .errorCaught e :: runLoop agent rest

end MainCli

/-! Concrete fixtures: a fully configured environment, an unconfigured one,
and concrete service behaviours, used to evaluate the embedded functions at
explicit inputs. -/

/-- An environment with all four required variables set. -/
def envAll : Env :=
  ⟨some "sk-openai", some "pc-key", some "us-east-1-aws", some "rag-index"⟩

/-- An environment with no variable set. -/
def envNone : Env := ⟨none, none, none, none⟩

/-- Retrieval services where every call succeeds and the similarity search
finds nothing. -/
def behEmpty : RetrieveKnowledgeTool.Behavior :=
  ⟨.ok (), .ok (), fun _ _ => .ok []⟩

/-- Retrieval services where every call succeeds and the similarity search
finds one chunk. -/
def behFound : RetrieveKnowledgeTool.Behavior :=
  ⟨.ok (), .ok (), fun _ _ => .ok ["The sky is blue."]⟩

/-- Retrieval services where the embedding-client constructor raises. -/
def behInitFail : RetrieveKnowledgeTool.Behavior :=
  ⟨.error "invalid api key", .ok (), fun _ _ => .ok []⟩

/-- Retrieval services where connecting to the index raises. -/
def behConnectFail : RetrieveKnowledgeTool.Behavior :=
  ⟨.ok (), .error "index not found", fun _ _ => .ok []⟩

/-- Retrieval services where the similarity search raises because the query
embedding has a different dimension than the index. -/
def behDimMismatch : RetrieveKnowledgeTool.Behavior :=
  ⟨.ok (), .ok (),
   fun _ _ => .error "Query vector dimension 384 does not match the dimension of the index 1536"⟩

/-- Retrieval services where the similarity search raises for an unrelated
network reason. -/
def behNetworkFail : RetrieveKnowledgeTool.Behavior :=
  ⟨.ok (), .ok (), fun _ _ => .error "Connection reset by peer"⟩

/-- Cloud-ingestion services where every call succeeds, the knowledge file
holds one document, and the splitter returns the document as one chunk. -/
def behCloudOk : IngestCloud.CloudBehavior :=
  ⟨.ok (), .ok (), .ok (), true, .ok ["The sky is blue."], fun t => [t], .ok ()⟩

/-- A Pinecone state where the index `rag-index` already exists with the
ada-002 dimension and already holds one record. -/
def stWithIndex : IngestCloud.PineconeState :=
  ⟨[⟨"rag-index", 1536, "cosine"⟩], [("rag-index", "an earlier chunk")]⟩

/-- A splitter behaviour that keeps a non-empty document as a single chunk
(a document shorter than the chunk size) and an empty document as no
chunks. -/
def splitWhole : String → List String := fun t => if t = "" then [] else [t]

/-- An empty local filesystem. -/
def emptyFs : String → Option (List String) := fun _ => none

/-- The local filesystem after running `ingest_documents` once on the
single-sentence knowledge file. -/
def fsAfterFirstRun : String → Option (List String) :=
  Ingest.ingest_documents splitWhole (some "The sky is blue.") true true emptyFs

/-- The local filesystem after running `ingest_documents` a second time
with the same source. -/
def fsAfterSecondRun : String → Option (List String) :=
  Ingest.ingest_documents splitWhole (some "The sky is blue.") true true fsAfterFirstRun

/-- An agent runner whose response dictionary has a `response` key. -/
def agentOk : String → Except String (List (String × String)) :=
  fun q => .ok [("response", "The sky is blue."), ("echo", q)]

/-- An agent runner whose response dictionary lacks the `response` key. -/
def agentNoKey : String → Except String (List (String × String)) :=
  fun _ => .ok [("content", "The sky is blue.")]

/-- An agent runner that raises on every turn. -/
def agentFail : String → Except String (List (String × String)) :=
  fun _ => .error "LLM unavailable"

/-! Theorems. -/

/-- C1: the retrieval tool embeds every query with the same embedding model
(`text-embedding-ada-002`, hence the same 1536 dimension) that the cloud
ingestion pipeline uses to embed chunks for the Pinecone store the tool
queries: the two model constants are equal, and every embedding-client
initialisation in either trace passes exactly that model. -/
theorem retrieval_uses_ingestion_embedding_model :
    RetrieveKnowledgeTool.OPENAI_EMBEDDING_MODEL = IngestCloud.embeddingModel ∧
    IngestCloud.OPENAI_EMBEDDING_DIMENSION = 1536 ∧
    (∀ (env : Env) (beh : RetrieveKnowledgeTool.Behavior) (q m : String),
      RetrieveKnowledgeTool.Call.initEmbeddings m ∈
        (RetrieveKnowledgeTool.query_knowledge_base env beh q).calls →
      m = IngestCloud.embeddingModel) ∧
    (∀ (env : Env) (beh : IngestCloud.CloudBehavior)
        (st : IngestCloud.PineconeState) (m : String),
      IngestCloud.CloudCall.initEmbeddings m ∈
        (IngestCloud.ingest_documents_to_pinecone env beh st).calls →
      m = IngestCloud.embeddingModel) := by
  refine ⟨rfl, rfl, ?_, ?_⟩
  · intro env beh q m hm
    unfold RetrieveKnowledgeTool.query_knowledge_base at hm
    repeat' split at hm
    all_goals
      simp_all [RetrieveKnowledgeTool.OPENAI_EMBEDDING_MODEL, IngestCloud.embeddingModel]
  · intro env beh st m hm
    unfold IngestCloud.ingest_documents_to_pinecone IngestCloud.finishIngest at hm
    repeat' split at hm
    all_goals (try simp_all [IngestCloud.embeddingModel])
    all_goals (repeat' split at hm)
    all_goals (try simp_all [IngestCloud.embeddingModel])

/-- C1 witness: evaluated on the concrete configured environment and
all-succeeding services, the retrieval trace initialises the embedding
client with the cloud-ingestion model. -/
theorem retrieval_uses_ingestion_embedding_model_witness :
    "text-embedding-ada-002" = IngestCloud.embeddingModel :=
  retrieval_uses_ingestion_embedding_model.2.2.1 envAll behEmpty
    "What color is the sky?" "text-embedding-ada-002" (by decide)

/-- C2 counterexample: `query_knowledge_base` takes only the query string —
its signature offers no `top_k` argument — so on a concrete fully
configured run the similarity search is asked for exactly the constant 3
results; a caller wanting, say, 5 results has no way to request them. -/
theorem top_k_not_caller_selectable :
    RetrieveKnowledgeTool.searchKs envAll behFound "What color is the sky?" = [3] ∧
    (3 : Nat) ≠ 5 := by
  exact ⟨by decide, by decide⟩

/-- C2 amended: the number of results requested from the similarity search
is always the module constant `TOP_K_RESULTS = 3`; the retrieval function
exposes no `top_k` parameter, so the caller cannot override it — every run
either makes no search call or one search call with `k = 3`. -/
theorem top_k_always_constant_three :
    RetrieveKnowledgeTool.TOP_K_RESULTS = 3 ∧
    ∀ (env : Env) (beh : RetrieveKnowledgeTool.Behavior) (q : String),
      RetrieveKnowledgeTool.searchKs env beh q = [] ∨
      RetrieveKnowledgeTool.searchKs env beh q = [RetrieveKnowledgeTool.TOP_K_RESULTS] := by
  refine ⟨rfl, ?_⟩
  intro env beh q
  unfold RetrieveKnowledgeTool.searchKs RetrieveKnowledgeTool.query_knowledge_base
  repeat' split
  all_goals simp [List.filterMap]

/-- C3: when the environment is configured and every external call
succeeds but the store has no matching content (the similarity search
returns no documents), the tool returns the empty outcome — status
`success` with an empty `retrieved_context` — never a `status = "error"`
dictionary; the embedded function is total, so no crash. -/
theorem empty_store_retrieval_success :
    ∀ (env : Env) (beh : RetrieveKnowledgeTool.Behavior) (q : String),
      missingVars env = [] →
      beh.initEmbeddings = .ok () →
      beh.connectIndex = .ok () →
      beh.similaritySearch q RetrieveKnowledgeTool.TOP_K_RESULTS = .ok [] →
      RetrieveKnowledgeTool.retrievalResult env beh q =
        ⟨"success", some "No relevant information found in the knowledge base.", ""⟩ ∧
      (RetrieveKnowledgeTool.retrievalResult env beh q).status ≠ "error" := by
  intro env beh q h1 h2 h3 h4
  unfold RetrieveKnowledgeTool.retrievalResult RetrieveKnowledgeTool.query_knowledge_base
  simp [h1, h2, h3, h4]

/-- C3 witness: the empty-store outcome evaluated at a concrete configured
environment and an all-succeeding, empty-result search. -/
theorem empty_store_retrieval_success_witness :
    RetrieveKnowledgeTool.retrievalResult envAll behEmpty "What color is the sky?" =
      ⟨"success", some "No relevant information found in the knowledge base.", ""⟩ ∧
    (RetrieveKnowledgeTool.retrievalResult envAll behEmpty "What color is the sky?").status ≠
      "error" :=
  empty_store_retrieval_success envAll behEmpty "What color is the sky?"
    (by decide) rfl rfl rfl

/-- C4: every retrieval-time failure — embedding-client initialisation,
store connection, or similarity search — is caught at the tool boundary
and returned as a dictionary with `status = "error"` and a message; the
embedded `query_knowledge_base` is a total function, so no exception
reaches the caller, and every run ends in a `success` dictionary or an
`error` dictionary carrying a message. -/
theorem retrieval_errors_caught_at_boundary :
    ∀ (env : Env) (beh : RetrieveKnowledgeTool.Behavior) (q : String),
      ((RetrieveKnowledgeTool.retrievalResult env beh q).status = "success" ∨
        ((RetrieveKnowledgeTool.retrievalResult env beh q).status = "error" ∧
         (RetrieveKnowledgeTool.retrievalResult env beh q).message.isSome = true)) ∧
      (∀ e, missingVars env = [] → beh.initEmbeddings = .error e →
        RetrieveKnowledgeTool.retrievalResult env beh q =
          ⟨"error", some ("Error initializing OpenAIEmbeddings: " ++ e), ""⟩) ∧
      (∀ e, missingVars env = [] → beh.initEmbeddings = .ok () →
        beh.connectIndex = .error e →
        RetrieveKnowledgeTool.retrievalResult env beh q =
          ⟨"error", some ("Error connecting to Pinecone index \x27" ++
            env.PINECONE_INDEX_NAME.getD "" ++ "\x27: " ++ e), ""⟩) ∧
      (∀ e, missingVars env = [] → beh.initEmbeddings = .ok () →
        beh.connectIndex = .ok () →
        beh.similaritySearch q RetrieveKnowledgeTool.TOP_K_RESULTS = .error e →
        RetrieveKnowledgeTool.retrievalResult env beh q =
          ⟨"error", some ("Error during similarity search with Pinecone: " ++ e), ""⟩) := by
  intro env beh q
  refine ⟨?_, ?_, ?_, ?_⟩
  · unfold RetrieveKnowledgeTool.retrievalResult RetrieveKnowledgeTool.query_knowledge_base
    repeat' split
    all_goals simp
  · intro e h1 h2
    unfold RetrieveKnowledgeTool.retrievalResult RetrieveKnowledgeTool.query_knowledge_base
    simp [h1, h2]
  · intro e h1 h2 h3
    unfold RetrieveKnowledgeTool.retrievalResult RetrieveKnowledgeTool.query_knowledge_base
    simp [h1, h2, h3]
  · intro e h1 h2 h3 h4
    unfold RetrieveKnowledgeTool.retrievalResult RetrieveKnowledgeTool.query_knowledge_base
    simp [h1, h2, h3, h4]

/-- C4 witness: each of the three failure modes, evaluated on concrete
behaviours, yields the corresponding structured error dictionary. -/
theorem retrieval_errors_caught_at_boundary_witness :
    RetrieveKnowledgeTool.retrievalResult envAll behInitFail "q" =
      ⟨"error", some "Error initializing OpenAIEmbeddings: invalid api key", ""⟩ ∧
    RetrieveKnowledgeTool.retrievalResult envAll behConnectFail "q" =
      ⟨"error", some "Error connecting to Pinecone index \x27rag-index\x27: index not found", ""⟩ ∧
    RetrieveKnowledgeTool.retrievalResult envAll behNetworkFail "q" =
      ⟨"error", some "Error during similarity search with Pinecone: Connection reset by peer", ""⟩ :=
  ⟨(retrieval_errors_caught_at_boundary envAll behInitFail "q").2.1
      "invalid api key" (by decide) rfl,
   (retrieval_errors_caught_at_boundary envAll behConnectFail "q").2.2.1
      "index not found" (by decide) rfl rfl,
   (retrieval_errors_caught_at_boundary envAll behNetworkFail "q").2.2.2
      "Connection reset by peer" (by decide) rfl rfl rfl⟩

/-- C5 counterexample: the tool has no `DimensionMismatch` error kind.  On
a concrete run where the similarity search raises precisely because the
query-embedding dimension differs from the index dimension, the returned
outcome carries the generic status `error` — identical to the status
returned for an unrelated network failure — and no field of the outcome is
the distinct kind `DimensionMismatch`. -/
theorem dimension_mismatch_no_distinct_kind :
    (RetrieveKnowledgeTool.retrievalResult envAll behDimMismatch "What color is the sky?").status =
      "error" ∧
    (RetrieveKnowledgeTool.retrievalResult envAll behDimMismatch "What color is the sky?").status ≠
      "DimensionMismatch" ∧
    (RetrieveKnowledgeTool.retrievalResult envAll behDimMismatch "What color is the sky?").status =
      (RetrieveKnowledgeTool.retrievalResult envAll behNetworkFail "What color is the sky?").status := by
  exact ⟨by decide, by decide, by decide⟩

/-- C5 amended: a query-time dimension mismatch is not silently truncated
or padded — the search failure aborts the retrieval — but it surfaces as
the generic search-error outcome (`status = "error"` with the provider
message wrapped in the similarity-search error text), not as a distinct
`DimensionMismatch` kind: the tool only ever returns the statuses
`success` and `error`. -/
theorem search_failure_generic_error :
    (∀ (env : Env) (beh : RetrieveKnowledgeTool.Behavior) (q : String),
      (RetrieveKnowledgeTool.retrievalResult env beh q).status = "success" ∨
      (RetrieveKnowledgeTool.retrievalResult env beh q).status = "error") ∧
    (∀ (env : Env) (beh : RetrieveKnowledgeTool.Behavior) (q e : String),
      missingVars env = [] →
      beh.initEmbeddings = .ok () →
      beh.connectIndex = .ok () →
      beh.similaritySearch q RetrieveKnowledgeTool.TOP_K_RESULTS = .error e →
      RetrieveKnowledgeTool.retrievalResult env beh q =
        ⟨"error", some ("Error during similarity search with Pinecone: " ++ e), ""⟩) := by
  constructor
  · intro env beh q
    unfold RetrieveKnowledgeTool.retrievalResult RetrieveKnowledgeTool.query_knowledge_base
    repeat' split
    all_goals simp
  · intro env beh q e h1 h2 h3 h4
    unfold RetrieveKnowledgeTool.retrievalResult RetrieveKnowledgeTool.query_knowledge_base
    simp [h1, h2, h3, h4]

/-- C5 witness: the dimension-mismatch behaviour evaluated concretely
yields the generic similarity-search error dictionary. -/
theorem search_failure_generic_error_witness :
    RetrieveKnowledgeTool.retrievalResult envAll behDimMismatch "What color is the sky?" =
      ⟨"error",
       some "Error during similarity search with Pinecone: Query vector dimension 384 does not match the dimension of the index 1536",
       ""⟩ :=
  search_failure_generic_error.2 envAll behDimMismatch "What color is the sky?"
    "Query vector dimension 384 does not match the dimension of the index 1536"
    (by decide) rfl rfl rfl

/-- Helper for C6: membership in `missingVars` names exactly the
environment variables whose values are unset or empty. -/
theorem missingVars_names (env : Env) :
    ("OPENAI_API_KEY" ∈ missingVars env ↔ truthy env.OPENAI_API_KEY = false) ∧
    ("PINECONE_API_KEY" ∈ missingVars env ↔ truthy env.PINECONE_API_KEY = false) ∧
    ("PINECONE_ENVIRONMENT" ∈ missingVars env ↔ truthy env.PINECONE_ENVIRONMENT = false) ∧
    ("PINECONE_INDEX_NAME" ∈ missingVars env ↔ truthy env.PINECONE_INDEX_NAME = false) := by
  unfold missingVars
  cases h1 : truthy env.OPENAI_API_KEY <;> cases h2 : truthy env.PINECONE_API_KEY <;>
    cases h3 : truthy env.PINECONE_ENVIRONMENT <;> cases h4 : truthy env.PINECONE_INDEX_NAME <;>
    simp

/-- C6: whenever any of the four required configuration variables is
missing, the retrieval tool returns a configuration error whose message
lists the missing variable names and makes no external call, and the cloud
ingestion run aborts with a configuration error naming the missing
variables, makes no external call, and leaves the store untouched; the
listed names are exactly the unset variables. -/
theorem missing_config_fails_fast :
    ∀ (env : Env) (behR : RetrieveKnowledgeTool.Behavior)
      (behC : IngestCloud.CloudBehavior) (st : IngestCloud.PineconeState) (q : String),
      missingVars env ≠ [] →
      RetrieveKnowledgeTool.retrievalResult env behR q =
        ⟨"error", some ("Error: Missing required environment variables: " ++
          String.intercalate ", " (missingVars env)), ""⟩ ∧
      (RetrieveKnowledgeTool.query_knowledge_base env behR q).calls = [] ∧
      (IngestCloud.ingest_documents_to_pinecone env behC st).outcome =
        .configError (missingVars env) ∧
      (IngestCloud.ingest_documents_to_pinecone env behC st).calls = [] ∧
      (IngestCloud.ingest_documents_to_pinecone env behC st).state = st ∧
      (("OPENAI_API_KEY" ∈ missingVars env ↔ truthy env.OPENAI_API_KEY = false) ∧
       ("PINECONE_API_KEY" ∈ missingVars env ↔ truthy env.PINECONE_API_KEY = false) ∧
       ("PINECONE_ENVIRONMENT" ∈ missingVars env ↔ truthy env.PINECONE_ENVIRONMENT = false) ∧
       ("PINECONE_INDEX_NAME" ∈ missingVars env ↔ truthy env.PINECONE_INDEX_NAME = false)) := by
  intro env behR behC st q h
  refine ⟨?_, ?_, ?_, ?_, ?_, missingVars_names env⟩ <;>
    simp [RetrieveKnowledgeTool.retrievalResult, RetrieveKnowledgeTool.query_knowledge_base,
      IngestCloud.ingest_documents_to_pinecone, h]

/-- C6 witness: with no variable set, retrieval returns the error naming
all four variables with an empty call trace, and cloud ingestion aborts
with the same four names, no calls and an unchanged store. -/
theorem missing_config_fails_fast_witness :
    RetrieveKnowledgeTool.retrievalResult envNone behEmpty "q" =
      ⟨"error", some "Error: Missing required environment variables: OPENAI_API_KEY, PINECONE_API_KEY, PINECONE_ENVIRONMENT, PINECONE_INDEX_NAME", ""⟩ ∧
    (RetrieveKnowledgeTool.query_knowledge_base envNone behEmpty "q").calls = [] ∧
    (IngestCloud.ingest_documents_to_pinecone envNone behCloudOk stWithIndex).outcome =
      .configError ["OPENAI_API_KEY", "PINECONE_API_KEY", "PINECONE_ENVIRONMENT", "PINECONE_INDEX_NAME"] ∧
    (IngestCloud.ingest_documents_to_pinecone envNone behCloudOk stWithIndex).calls = [] ∧
    (IngestCloud.ingest_documents_to_pinecone envNone behCloudOk stWithIndex).state = stWithIndex := by
  have h := missing_config_fails_fast envNone behEmpty behCloudOk stWithIndex "q" (by decide)
  exact ⟨h.1, h.2.1, h.2.2.1, h.2.2.2.1, h.2.2.2.2.1⟩

/-- C7: the create-if-absent step of cloud ingestion is idempotent —
running it a second time with the same name, dimension and metric returns
the state of the first run unchanged (the second run detects the existing
index), and when the name was initially absent, the resulting service
holds exactly one index of that name, with the given dimension and
metric. -/
theorem create_index_if_absent_idempotent :
    ∀ (s : IngestCloud.PineconeState) (n : String) (d : Nat) (m : String),
      IngestCloud.createIndexIfAbsent (IngestCloud.createIndexIfAbsent s n d m) n d m =
        IngestCloud.createIndexIfAbsent s n d m ∧
      (n ∉ s.indexes.map IngestCloud.IndexInfo.name →
        (IngestCloud.createIndexIfAbsent s n d m).indexes.filter
            (fun i => i.name == n) = [⟨n, d, m⟩]) := by
  intro s n d m
  constructor
  · unfold IngestCloud.createIndexIfAbsent
    by_cases h : n ∈ s.indexes.map IngestCloud.IndexInfo.name
    · simp [h]
    · simp [h]
  · intro h
    unfold IngestCloud.createIndexIfAbsent
    have hs : s.indexes.filter (fun i => i.name == n) = [] := by
      rw [List.filter_eq_nil_iff]
      intro a ha
      simp only [beq_iff_eq]
      intro hn
      exact h (List.mem_map.mpr ⟨a, ha, hn⟩)
    simp [h, List.filter_append, hs]

/-- C7 witness: creating `rag-index` twice on an initially empty service
leaves exactly one index of that name, with dimension 1536 and the cosine
metric, and the second run changes nothing. -/
theorem create_index_if_absent_idempotent_witness :
    IngestCloud.createIndexIfAbsent
        (IngestCloud.createIndexIfAbsent ⟨[], []⟩ "rag-index" 1536 "cosine")
        "rag-index" 1536 "cosine" =
      IngestCloud.createIndexIfAbsent ⟨[], []⟩ "rag-index" 1536 "cosine" ∧
    (IngestCloud.createIndexIfAbsent ⟨[], []⟩ "rag-index" 1536 "cosine").indexes.filter
        (fun i => i.name == "rag-index") = [⟨"rag-index", 1536, "cosine"⟩] :=
  ⟨(create_index_if_absent_idempotent ⟨[], []⟩ "rag-index" 1536 "cosine").1,
   (create_index_if_absent_idempotent ⟨[], []⟩ "rag-index" 1536 "cosine").2 (by decide)⟩

/-- C8 counterexample: for the local store, re-running ingest with the
same single-sentence source does not append.  After a first run the saved
index holds the one chunk; after the second run it still holds exactly
that one chunk — the record count stays 1 instead of growing to 2 —
because `ingest_documents` builds a brand-new store from the source alone
and overwrites the saved index. -/
theorem local_reingest_not_append :
    fsAfterFirstRun Ingest.FAISS_INDEX_FILE = some ["The sky is blue."] ∧
    fsAfterSecondRun Ingest.FAISS_INDEX_FILE = some ["The sky is blue."] ∧
    (fsAfterSecondRun Ingest.FAISS_INDEX_FILE).map List.length = some 1 ∧
    (1 : Nat) ≠ 1 + 1 := by
  exact ⟨by decide, by decide, by decide, by decide⟩

/-- C8 amended: re-running ingest against the same *remote* store with the
same source appends a fresh, independent set of records — the record count
grows by the chunk count, the prior records are preserved as a prefix and
no deduplication happens — whereas the *local* ingest rebuilds the saved
index from the current source alone, so the saved index afterwards
contains exactly the new chunks regardless of what was stored before. -/
theorem reingest_append_remote_overwrite_local :
    (∀ (env : Env) (beh : IngestCloud.CloudBehavior)
       (st : IngestCloud.PineconeState) (docs : List String),
      missingVars env = [] →
      beh.clientInit = .ok () →
      env.PINECONE_INDEX_NAME.getD "" ∈ st.indexes.map IngestCloud.IndexInfo.name →
      beh.embeddingsInit = .ok () →
      beh.fileExists = true →
      beh.load = .ok docs →
      docs ≠ [] →
      docs.flatMap beh.split ≠ [] →
      beh.upsert = .ok () →
      (IngestCloud.ingest_documents_to_pinecone env beh st).state.records =
        st.records ++ (docs.flatMap beh.split).map
          (fun t => (env.PINECONE_INDEX_NAME.getD "", t)) ∧
      (IngestCloud.ingest_documents_to_pinecone env beh st).state.indexes = st.indexes ∧
      (IngestCloud.ingest_documents_to_pinecone env beh st).state.records.length =
        st.records.length + (docs.flatMap beh.split).length ∧
      (IngestCloud.ingest_documents_to_pinecone env beh st).outcome =
        .completed (docs.flatMap beh.split).length) ∧
    (∀ (split : String → List String) (text : String)
       (fs : String → Option (List String)),
      split text ≠ [] →
      Ingest.ingest_documents split (some text) true true fs Ingest.FAISS_INDEX_FILE =
        some (split text)) := by
  constructor
  · intro env beh st docs h1 h2 h3 h4 h5 h6 h7 h8 h9
    unfold IngestCloud.ingest_documents_to_pinecone IngestCloud.finishIngest
    simp [h1, h2, h3, h4, h5, h6, h7, h8, h9]
  · intro split text fs h
    unfold Ingest.ingest_documents
    simp [h]

/-- C8 amended witness: ingesting the single-sentence source into an
existing remote index holding one prior record appends one fresh record
(count 1 becomes 2, the prior record kept first), while the local run on
any prior filesystem saves exactly the new chunk. -/
theorem reingest_append_remote_overwrite_local_witness :
    (IngestCloud.ingest_documents_to_pinecone envAll behCloudOk stWithIndex).state.records =
      [("rag-index", "an earlier chunk"), ("rag-index", "The sky is blue.")] ∧
    (IngestCloud.ingest_documents_to_pinecone envAll behCloudOk stWithIndex).state.records.length =
      1 + 1 ∧
    (IngestCloud.ingest_documents_to_pinecone envAll behCloudOk stWithIndex).outcome =
      .completed 1 ∧
    Ingest.ingest_documents splitWhole (some "The sky is blue.") true true fsAfterFirstRun
        Ingest.FAISS_INDEX_FILE = some ["The sky is blue."] := by
  have h := reingest_append_remote_overwrite_local.1 envAll behCloudOk stWithIndex
    ["The sky is blue."] (by decide) rfl (by decide) rfl rfl rfl (by decide) (by decide) rfl
  have h2 := reingest_append_remote_overwrite_local.2 splitWhole "The sky is blue."
    fsAfterFirstRun (by decide)
  exact ⟨h.1, h.2.2.1, h.2.2.2, h2⟩

/-- C9: in the interactive loop, a line whose lowercasing is `exit` ends
the loop with the farewell turn; a non-exit line that strips to the empty
string is skipped — its turn is the same for every agent, so the agent is
never consulted — and the loop re-prompts on the remaining lines; any
other line is forwarded to the agent, whose answer under the `response`
key (or the generic fallback string when the key is absent) is printed;
and a turn in which the agent raises is reported inline and the loop
continues with the remaining lines, so no single failed turn terminates
the session. -/
theorem cli_loop_turn_behavior :
    (∀ (agent : String → Except String (List (String × String)))
       (line : String) (rest : List String),
      MainCli.pyLower line = "exit" →
      MainCli.runLoop agent (line :: rest) = [.exited]) ∧
    (∀ (agent : String → Except String (List (String × String)))
       (line : String) (rest : List String),
      MainCli.pyLower line ≠ "exit" → MainCli.pyStrip line = "" →
      MainCli.runLoop agent (line :: rest) = .skipped :: MainCli.runLoop agent rest) ∧
    (∀ (agent agent2 : String → Except String (List (String × String)))
       (line : String),
      MainCli.pyLower line ≠ "exit" → MainCli.pyStrip line = "" →
      MainCli.processTurn agent line = MainCli.processTurn agent2 line) ∧
    (∀ (agent : String → Except String (List (String × String)))
       (line : String) (response_data : List (String × String)),
      MainCli.pyLower line ≠ "exit" → MainCli.pyStrip line ≠ "" → agent line = .ok response_data →
      MainCli.processTurn agent line = .answered (MainCli.getResponse response_data)) ∧
    (∀ (response_data : List (String × String)),
      response_data.lookup "response" = none →
      MainCli.getResponse response_data = "No response content found.") ∧
    (∀ (agent : String → Except String (List (String × String)))
       (line e : String) (rest : List String),
      MainCli.pyLower line ≠ "exit" → MainCli.pyStrip line ≠ "" → agent line = .error e →
      MainCli.runLoop agent (line :: rest) =
        .errorCaught e :: MainCli.runLoop agent rest) := by
  refine ⟨?_, ?_, ?_, ?_, ?_, ?_⟩
  · intro agent line rest h
    simp [MainCli.runLoop, MainCli.processTurn, h]
  · intro agent line rest h1 h2
    simp [MainCli.runLoop, MainCli.processTurn, h1, h2]
  · intro agent agent2 line h1 h2
    simp [MainCli.processTurn, h1, h2]
  · intro agent line response_data h1 h2 h3
    simp [MainCli.processTurn, h1, h2, h3]
  · intro response_data h
    simp [MainCli.getResponse, h]
  · intro agent line e rest h1 h2 h3
    simp [MainCli.runLoop, MainCli.processTurn, h1, h2, h3]

/-- C9 witness: concrete turns — `EXIT` ends the loop, a whitespace line
is skipped identically under two different agents, a query is answered
from the `response` key, a response dictionary without that key falls back
to the generic string, and a raising agent yields a reported error
followed by the rest of the session. -/
theorem cli_loop_turn_behavior_witness :
    MainCli.runLoop agentOk ["EXIT", "later"] = [.exited] ∧
    MainCli.runLoop agentOk ["   ", "exit"] = [.skipped, .exited] ∧
    MainCli.processTurn agentOk "   " = MainCli.processTurn agentFail "   " ∧
    MainCli.processTurn agentOk "What color is the sky?" =
      .answered "The sky is blue." ∧
    MainCli.getResponse [("content", "The sky is blue.")] = "No response content found." ∧
    MainCli.runLoop agentFail ["What color is the sky?", "exit"] =
      [.errorCaught "LLM unavailable", .exited] := by
  refine ⟨cli_loop_turn_behavior.1 agentOk "EXIT" ["later"] (by decide), ?_, ?_, ?_, ?_, ?_⟩
  · have h := cli_loop_turn_behavior.2.1 agentOk "   " ["exit"] (by decide) (by decide)
    rw [h]
    exact congrArg _ (cli_loop_turn_behavior.1 agentOk "exit" [] (by decide))
  · exact cli_loop_turn_behavior.2.2.1 agentOk agentFail "   " (by decide) (by decide)
  · exact cli_loop_turn_behavior.2.2.2.1 agentOk "What color is the sky?"
      [("response", "The sky is blue."), ("echo", "What color is the sky?")]
      (by decide) (by decide) rfl
  · exact cli_loop_turn_behavior.2.2.2.2.1 [("content", "The sky is blue.")] (by decide)
  · have h := cli_loop_turn_behavior.2.2.2.2.2 agentFail "What color is the sky?"
      "LLM unavailable" ["exit"] (by decide) (by decide) rfl
    rw [h]
    exact congrArg _ (cli_loop_turn_behavior.1 agentFail "exit" [] (by decide))

/-- C10: for every input, the retrieval tool returns a dictionary whose
`status` is either `success` or `error` and whose `retrieved_context` is a
string that is non-empty only in `success` dictionaries; every
non-success dictionary additionally carries a `message` string. -/
theorem tool_result_shape_invariant :
    ∀ (env : Env) (beh : RetrieveKnowledgeTool.Behavior) (q : String),
      ((RetrieveKnowledgeTool.retrievalResult env beh q).status = "success" ∨
       (RetrieveKnowledgeTool.retrievalResult env beh q).status = "error") ∧
      ((RetrieveKnowledgeTool.retrievalResult env beh q).retrieved_context ≠ "" →
        (RetrieveKnowledgeTool.retrievalResult env beh q).status = "success") ∧
      ((RetrieveKnowledgeTool.retrievalResult env beh q).status ≠ "success" →
        (RetrieveKnowledgeTool.retrievalResult env beh q).message.isSome = true) := by
  intro env beh q
  unfold RetrieveKnowledgeTool.retrievalResult RetrieveKnowledgeTool.query_knowledge_base
  repeat' split
  all_goals simp

/-- C10 witness: at a concrete successful retrieval the context is
non-empty and the invariant forces status `success`; at a concrete failed
retrieval the invariant forces a message to be present. -/
theorem tool_result_shape_invariant_witness :
    (RetrieveKnowledgeTool.retrievalResult envAll behFound "What color is the sky?").status =
      "success" ∧
    (RetrieveKnowledgeTool.retrievalResult envNone behFound "What color is the sky?").message.isSome =
      true :=
  ⟨(tool_result_shape_invariant envAll behFound "What color is the sky?").2.1 (by decide),
   (tool_result_shape_invariant envNone behFound "What color is the sky?").2.2 (by decide)⟩
